import Mathlib

/-!
Shallow embedding of the swatch editor (src/src/main.rs).

The program is a single-file egui application editing Adobe Swatch Exchange
documents.  External collaborators (file dialogs, the file system, the ASE
codec) are modelled by passing their outcomes as explicit parameters:
a dialog outcome is an `Option Path`, a file write outcome is an
`Except String Unit`, and a load outcome (read plus decode, the body of
`load_from_path`) is an `Except String (List Group × List ColorBlock)`.
Machine floats (f32) are modelled by rationals; the cast `(x * 255.0) as u8`
is truncation toward zero saturated into [0, 255], which on the clamped
range coincides with `Int.toNat (min 255 (max 0 ⌊x * 255⌋))`.
-/

namespace Swatch

/-- Paths are opaque strings for the purposes of the session state machine. -/
abbrev Path := String

/-- ColorValue of the adobe_swatch_exchange crate: the RGB variant is the one
the program renders; CMYK, LAB and Gray are held opaquely (the spec lists
these variants; rendering any of them aborts). Channels are f32, modelled
as rationals. -/
inductive ColorValue where
  | Rgb : ℚ → ℚ → ℚ → ColorValue
  | Cmyk : ℚ → ℚ → ℚ → ℚ → ColorValue
  | Lab : ℚ → ℚ → ℚ → ColorValue
  | Gray : ℚ → ColorValue
deriving DecidableEq

/-- ColorType of the adobe_swatch_exchange crate, passed through unchanged. -/
inductive ColorType where
  | Global : ColorType
  | Spot : ColorType
  | Normal : ColorType
deriving DecidableEq

/-- ColorBlock: a named color entry; `kind` is the crate color type tag. -/
structure ColorBlock where
  name : String
  color : ColorValue
  kind : ColorType
deriving DecidableEq

/-- Mirror of `ColorBlock::new(name, color, type)`. -/
def ColorBlock.new (name : String) (color : ColorValue) (kind : ColorType) : ColorBlock :=
  { name := name, color := color, kind := kind }

/-- Group: a named ordered sequence of color blocks. -/
structure Group where
  name : String
  blocks : List ColorBlock
deriving DecidableEq

/-- App state (struct App, main.rs lines 27-36): save path, groups,
ungrouped blocks, and the accumulated recoverable errors. -/
structure App where
  save_path : Option Path
  groups : List Group
  ungrouped : List ColorBlock
  errors : List String
deriving DecidableEq

/-- App::new (main.rs lines 39-64): the state is created with
`save_path := path` up front; when a startup path was given the load is
attempted, on success replacing groups and ungrouped, on failure pushing
one diagnostic.  `loadResult` stands for the outcome of `load_from_path`. -/
def appNew (path : Option Path)
    (loadResult : Except String (List Group × List ColorBlock)) : App :=
  let ret : App := { save_path := path, groups := [], ungrouped := [], errors := [] }
  match path with
  | none => ret
  | some _ =>
    match loadResult with
    | Except.ok gu => { ret with groups := gu.1, ungrouped := gu.2 }
    | Except.error e => { ret with errors := ret.errors ++ [e] }

/-- App::set_save_path (main.rs lines 66-86): the dialog directory seeding
has no effect on the session state; the function assigns the state field
`save_path := dlg.save_file()` unconditionally, so a cancelled dialog
(`dialogResult = none`) stores `none`. -/
def set_save_path (app : App) (dialogResult : Option Path) : App :=
  { app with save_path := dialogResult }

/-- App::save (main.rs lines 88-101): when Unbound, first prompt for the
path; if still Unbound skip silently; otherwise encode clones of the
document and write.  The returned list records each file write attempted
(the path written to), so the absence of a retry is visible; a failed write
pushes one diagnostic. -/
def save (app : App) (dialogResult : Option Path)
    (writeResult : Except String Unit) : App × List Path :=
  let app1 := if app.save_path.isNone then set_save_path app dialogResult else app
  match app1.save_path with
  | none => (app1, [])
  | some path =>
    match writeResult with
    | Except.ok _ => (app1, [path])
    | Except.error e => ({ app1 with errors := app1.errors ++ [e] }, [path])

/-- Save As handler (main.rs lines 145-151): unconditionally
`set_save_path`, then `save` only when a path was confirmed. -/
def saveAs (app : App) (dialogResult : Option Path)
    (writeResult : Except String Unit) : App × List Path :=
  let app1 := set_save_path app dialogResult
  if app1.save_path.isSome then save app1 dialogResult writeResult
  else (app1, [])

/-- App::open (main.rs lines 103-121): a cancelled picker changes nothing;
a chosen path is loaded, on success replacing the document and binding the
path, on failure (the `?` returns before any assignment) pushing one
diagnostic and leaving everything else unchanged. -/
def openApp (app : App) (pickResult : Option Path)
    (loadResult : Except String (List Group × List ColorBlock)) : App :=
  match pickResult with
  | none => app
  | some path =>
    match loadResult with
    | Except.ok gu =>
        { app with groups := gu.1, ungrouped := gu.2, save_path := some path }
    | Except.error e => { app with errors := app.errors ++ [e] }

/-- Add New button (main.rs lines 180-187): push a default block onto the
target sequence. -/
def addBlock (v : List ColorBlock) : List ColorBlock :=
  v ++ [ColorBlock.new "new" (ColorValue.Rgb 1 1 1) ColorType.Normal]

/-- Mirror of the Rust cast `x as u8` applied to the product `c * 255.0`
(main.rs line 217): truncation toward zero saturated into [0, 255].  After
saturation at 0 this agrees with clamping the floor. -/
def floatToU8 (c : ℚ) : ℕ := (min 255 (max 0 ⌊c * 255⌋)).toNat

/-- Translation of a stored color to the egui Color32 display form
(main.rs lines 215-222): defined only on the Rgb variant; every other
variant hits the fatal branch, modelled by `none`. -/
def toDisplay : ColorValue → Option (ℕ × ℕ × ℕ)
  | ColorValue.Rgb r g b => some (floatToU8 r, floatToU8 g, floatToU8 b)
  | _ => none

/-- Mirror of `Color32::to_normalized_gamma_f32` per channel
(main.rs line 247): an 8-bit channel divided by 255. -/
def u8ToFloat (n : ℕ) : ℚ := (n : ℚ) / 255

/-- Conversion of a display color back to the stored ASE form
(main.rs lines 246-248): always produces an Rgb value. -/
def fromDisplay (d : ℕ × ℕ × ℕ) : ColorValue :=
  ColorValue.Rgb (u8ToFloat d.1) (u8ToFloat d.2.1) (u8ToFloat d.2.2)

/-- Composite per-channel effect of one render step on a stored channel:
to display and back. -/
def quantizeChannel (c : ℚ) : ℚ := u8ToFloat (floatToU8 c)

/-- Full display round trip on a color value. -/
def display_roundtrip (v : ColorValue) : Option ColorValue :=
  (toDisplay v).map fromDisplay

/-- One execution of the color_block closure (main.rs lines 210-250) on a
block the user does not edit during the step: `as_color32` is computed from
the stored color (fatal on a non-Rgb variant, modelled by `none`), the name
edit box leaves the name unchanged, and line 248 writes the display color
back into `block.color` unconditionally. -/
def color_block_noedit (block : ColorBlock) : Option ColorBlock :=
  match toDisplay block.color with
  | none => none
  | some d => some { block with color := fromDisplay d }

/-- Modelled from the spec (section 4.1): the display mapping the spec
asserts, `round(clamp(channel,0,1) * 255)`, used only to compare against
the mapping the code implements. -/
def specToDisplayChannel (c : ℚ) : ℤ := round (min 1 (max 0 c) * 255)

/-- C1 counterexample: with the session Bound at "P.ase", a Save As whose
prompt is cancelled does not leave save_path equal to some "P.ase" — the
handler stores the dialog result unconditionally, so the path is cleared
to none.  This refutes the claim that a cancelled prompt leaves save_path
unchanged. -/
theorem saveAs_cancel_clears_path :
    (saveAs ⟨some "P.ase", [], [], []⟩ none (Except.ok ())).1.save_path
      ≠ some "P.ase" ∧
    (saveAs ⟨some "P.ase", [], [], []⟩ none (Except.ok ())).1.save_path
      = none := by
  constructor <;> simp [saveAs, set_save_path, save]

/-- C1 amended: a confirmed prompt stores the chosen path; a cancelled
prompt stores none (the session becomes Unbound, discarding a previously
Bound path).  A cancelled Save As performs no write and leaves the
document and the error log unchanged, with save_path = none. -/
theorem saveAs_cancel_unbinds (app : App) (chosen : Path)
    (w : Except String Unit) :
    (saveAs app none w).1.save_path = none ∧
    (saveAs app none w).1.groups = app.groups ∧
    (saveAs app none w).1.ungrouped = app.ungrouped ∧
    (saveAs app none w).1.errors = app.errors ∧
    (saveAs app none w).2 = [] ∧
    (set_save_path app (some chosen)).save_path = some chosen := by
  refine ⟨?_, ?_, ?_, ?_, ?_, ?_⟩ <;> simp [saveAs, set_save_path, save]

/-- C2 counterexample: the startup session for a path that fails to load is
Bound at that path, not Unbound — App::new assigns save_path before the
load is attempted, so the failing startup load does not leave save_path at
the value an unloaded session has (none). -/
theorem startup_load_failure_binds_path :
    (appNew (some "broken.ase") (Except.error "decode failed")).save_path
      = some "broken.ase" ∧
    (appNew (some "broken.ase") (Except.error "decode failed")).save_path
      ≠ none ∧
    (appNew none (Except.ok ([], []))).save_path = none := by
  refine ⟨rfl, ?_, rfl⟩
  simp [appNew]

/-- C2 amended: a failed Load through Open leaves the document and
save_path unchanged and appends exactly one diagnostic; a failed startup
load leaves the document empty and appends exactly one diagnostic, but the
session starts Bound at the failing candidate path (save_path = some path)
rather than Unbound. -/
theorem load_failure_preserves_document (app : App) (p : Path) (e : String) :
    openApp app (some p) (Except.error e)
      = { app with errors := app.errors ++ [e] } ∧
    appNew (some p) (Except.error e) = ⟨some p, [], [], [e]⟩ := by
  constructor <;> simp [openApp, appNew]

/-- C6: with the session Bound at P, a Save whose write fails leaves
save_path = P and the document unchanged, appends exactly one diagnostic,
and attempts exactly one write (no retry). -/
theorem save_write_failure_appends_error (app : App) (P : Path) (e : String)
    (dlg : Option Path) (h : app.save_path = some P) :
    save app dlg (Except.error e)
      = ({ app with errors := app.errors ++ [e] }, [P]) := by
  simp [save, h]

/-- C6 witness: a concrete Bound session with a failing write. -/
theorem save_write_failure_appends_error_witness :
    save ⟨some "p.ase", [], [], ["old"]⟩ none (Except.error "disk full")
      = (⟨some "p.ase", [], [], ["old", "disk full"]⟩, ["p.ase"]) :=
  save_write_failure_appends_error
    ⟨some "p.ase", [], [], ["old"]⟩ "p.ase" "disk full" none rfl

/-- C7: with the session Unbound, a Save whose path prompt is cancelled
performs no file write, records no error, and leaves the session exactly
as it was (still Unbound). -/
theorem save_cancelled_skips (app : App) (w : Except String Unit)
    (h : app.save_path = none) :
    save app none w = (app, []) := by
  obtain ⟨sp, gs, us, es⟩ := app
  cases h
  simp [save, set_save_path]

/-- C7 witness: a concrete Unbound session with a cancelled prompt; even a
write outcome that would fail is never consulted. -/
theorem save_cancelled_skips_witness :
    save ⟨none, [], [], ["old"]⟩ none (Except.error "never written")
      = (⟨none, [], [], ["old"]⟩, []) :=
  save_cancelled_skips ⟨none, [], [], ["old"]⟩
    (Except.error "never written") rfl

/-- C9: AddBlock appends exactly one block — the default block named "new"
with color Rgb(1,1,1) and kind Normal — leaving every previously present
block and the order unchanged; on the empty sequence the result is the
length-1 sequence holding that sole default element. -/
theorem addBlock_appends_default (v : List ColorBlock) :
    (addBlock v).length = v.length + 1 ∧
    (addBlock v).take v.length = v ∧
    (addBlock v).getLast?
      = some (ColorBlock.new "new" (ColorValue.Rgb 1 1 1) ColorType.Normal) ∧
    (ColorBlock.new "new" (ColorValue.Rgb 1 1 1) ColorType.Normal).name
      = "new" ∧
    (ColorBlock.new "new" (ColorValue.Rgb 1 1 1) ColorType.Normal).color
      = ColorValue.Rgb 1 1 1 ∧
    (ColorBlock.new "new" (ColorValue.Rgb 1 1 1) ColorType.Normal).kind
      = ColorType.Normal ∧
    addBlock []
      = [ColorBlock.new "new" (ColorValue.Rgb 1 1 1) ColorType.Normal] := by
  refine ⟨by simp [addBlock], ?_, ?_, rfl, rfl, rfl, rfl⟩
  · simp only [addBlock]
    exact List.take_left v _
  · simp [addBlock]

/-- Helper: on the clamped range the saturating cast is the floor. -/
lemma floatToU8_eq_floor (c : ℚ) (h0 : 0 ≤ c) (h1 : c ≤ 1) :
    (floatToU8 c : ℤ) = ⌊c * 255⌋ := by
  have hf0 : (0 : ℤ) ≤ ⌊c * 255⌋ := Int.floor_nonneg.mpr (by positivity)
  have hf255 : ⌊c * 255⌋ ≤ 255 := by
    have hc : c * 255 ≤ ((255 : ℤ) : ℚ) := by push_cast; nlinarith
    calc ⌊c * 255⌋ ≤ ⌊((255 : ℤ) : ℚ)⌋ := Int.floor_le_floor hc
      _ = 255 := Int.floor_intCast 255
  unfold floatToU8
  rw [max_eq_right hf0, min_eq_right hf255, Int.toNat_of_nonneg hf0]

/-- Helper: the per-channel display round trip moves a channel of [0,1]
by less than one quantization step. -/
lemma quantizeChannel_close (c : ℚ) (h0 : 0 ≤ c) (h1 : c ≤ 1) :
    |quantizeChannel c - c| ≤ 1 / 255 := by
  have hfl : quantizeChannel c = ((⌊c * 255⌋ : ℤ) : ℚ) / 255 := by
    unfold quantizeChannel u8ToFloat
    rw [show ((floatToU8 c : ℕ) : ℚ) = ((floatToU8 c : ℤ) : ℚ) by push_cast; ring,
      floatToU8_eq_floor c h0 h1]
  have hlo : ((⌊c * 255⌋ : ℤ) : ℚ) ≤ c * 255 := Int.floor_le _
  have hhi : c * 255 < ((⌊c * 255⌋ : ℤ) : ℚ) + 1 := Int.lt_floor_add_one _
  rw [hfl, abs_le]
  constructor <;> nlinarith

/-- Helper: the render step on an unedited Rgb block, written out. -/
lemma color_block_noedit_rgb (nm : String) (kd : ColorType) (r g b : ℚ) :
    color_block_noedit ⟨nm, ColorValue.Rgb r g b, kd⟩
      = some ⟨nm, ColorValue.Rgb (quantizeChannel r) (quantizeChannel g)
          (quantizeChannel b), kd⟩ := rfl

/-- Helper: the saturating cast sends the channel 1/2 to 127 (truncation
of 127.5). -/
lemma floatToU8_half : floatToU8 (1/2) = 127 := by
  have hf : ⌊(1/2 : ℚ) * 255⌋ = 127 := by
    rw [Int.floor_eq_iff]
    constructor <;> norm_num
  unfold floatToU8
  rw [hf]
  rfl

/-- Helper: the channel 1/2 is not a fixed point of the display round
trip. -/
lemma quantizeChannel_half : quantizeChannel (1/2) = 127/255 := by
  unfold quantizeChannel u8ToFloat
  rw [floatToU8_half]
  norm_num

/-- C3 counterexample: a render step in which the user does not edit the
block still changes the stored color — Rgb(1/2,1/2,1/2) is overwritten by
the display round trip Rgb(127/255,127/255,127/255). -/
theorem render_noedit_changes_color :
    color_block_noedit
        (ColorBlock.new "c" (ColorValue.Rgb (1/2) (1/2) (1/2)) ColorType.Normal)
      ≠ some
        (ColorBlock.new "c" (ColorValue.Rgb (1/2) (1/2) (1/2)) ColorType.Normal) := by
  intro h
  rw [ColorBlock.new, color_block_noedit_rgb] at h
  simp only [Option.some.injEq, ColorBlock.mk.injEq, ColorValue.Rgb.injEq] at h
  obtain ⟨-, ⟨hq, -, -⟩, -⟩ := h
  rw [quantizeChannel_half] at hq
  norm_num at hq

/-- C3 amended: the render step, absent any user edit, always writes the
display round trip back into the stored color (name and kind untouched);
the channels are preserved exactly only when each one is a fixed point of
the quantization, as the multiples k/255 with k ≤ 255 are — not in
general. -/
theorem render_noedit_quantizes (nm : String) (kd : ColorType) (r g b : ℚ) :
    color_block_noedit ⟨nm, ColorValue.Rgb r g b, kd⟩
      = some ⟨nm, ColorValue.Rgb (quantizeChannel r) (quantizeChannel g)
          (quantizeChannel b), kd⟩ ∧
    (∀ k : ℕ, k ≤ 255 →
      quantizeChannel ((k : ℚ) / 255) = (k : ℚ) / 255) := by
  constructor
  · exact color_block_noedit_rgb nm kd r g b
  · intro k hk
    unfold quantizeChannel u8ToFloat floatToU8
    have h1 : ((k : ℚ) / 255) * 255 = (k : ℚ) := by
      field_simp
    rw [h1, Int.floor_natCast]
    have hk2 : (k : ℤ) ≤ 255 := by exact_mod_cast hk
    have h2 : min 255 (max 0 (k : ℤ)) = (k : ℤ) := by omega
    rw [h2]
    simp

/-- C3 amended witness: a concrete unedited render, and the fixed point at
128/255. -/
theorem render_noedit_quantizes_witness :
    color_block_noedit ⟨"w", ColorValue.Rgb 0 1 (1/2), ColorType.Normal⟩
      = some ⟨"w", ColorValue.Rgb (quantizeChannel 0) (quantizeChannel 1)
          (quantizeChannel (1/2)), ColorType.Normal⟩ ∧
    (128 : ℕ) ≤ 255 ∧
    quantizeChannel (((128 : ℕ) : ℚ) / 255) = ((128 : ℕ) : ℚ) / 255 :=
  ⟨(render_noedit_quantizes "w" ColorType.Normal 0 1 (1/2)).1, by decide,
    (render_noedit_quantizes "w" ColorType.Normal 0 1 (1/2)).2 128 (by decide)⟩

/-- C4 counterexample: at channel value 1/2 the code produces 127
(truncation of 127.5) while round(clamp(1/2,0,1)*255) = 128, so the
display mapping is not the rounding the claim states. -/
theorem to_display_not_round_cex :
    floatToU8 (1/2) = 127 ∧ specToDisplayChannel (1/2) = 128 ∧
    (floatToU8 (1/2) : ℤ) ≠ specToDisplayChannel (1/2) := by
  have h128 : specToDisplayChannel (1/2) = 128 := by
    unfold specToDisplayChannel
    rw [round_eq, show min 1 (max 0 (1/2 : ℚ)) * 255 + 1/2 = 128 by norm_num,
      Int.floor_eq_iff]
    constructor <;> norm_num
  refine ⟨floatToU8_half, h128, ?_⟩
  rw [floatToU8_half, h128]
  norm_num

/-- C4 amended: each channel is mapped by truncation, not rounding:
the display value is ⌊clamp(c,0,1) * 255⌋, i.e. the saturating u8 cast of
c * 255 agrees with flooring the clamped-and-scaled channel. -/
theorem to_display_truncates (c : ℚ) :
    (floatToU8 c : ℤ) = ⌊min 1 (max 0 c) * 255⌋ := by
  rcases le_total c 0 with h | h
  · have hmax : max 0 c = 0 := max_eq_left h
    have hfl : ⌊c * 255⌋ ≤ 0 := by
      calc ⌊c * 255⌋ ≤ ⌊(0 : ℚ)⌋ := Int.floor_le_floor (by nlinarith)
        _ = 0 := Int.floor_zero
    rw [hmax]
    norm_num
    unfold floatToU8
    rw [max_eq_left hfl]
    norm_num
  · rcases le_total c 1 with h1 | h1
    · rw [max_eq_right h, min_eq_right h1]
      exact floatToU8_eq_floor c h h1
    · have hmax : max 0 c = c := max_eq_right (le_trans zero_le_one h1)
      have hmin : min 1 c = 1 := min_eq_left h1
      rw [hmax, hmin]
      have hfl : (255 : ℤ) ≤ ⌊c * 255⌋ := by
        calc (255 : ℤ) = ⌊((255 : ℤ) : ℚ)⌋ := (Int.floor_intCast 255).symm
          _ ≤ ⌊c * 255⌋ := Int.floor_le_floor (by push_cast; nlinarith)
      unfold floatToU8
      rw [max_eq_right (le_trans (by norm_num) hfl), min_eq_left hfl]
      norm_num

/-- C5: for channels in [0,1] the display round trip produces an Rgb value
each of whose channels differs from the original by at most 1/255. -/
theorem display_roundtrip_close (r g b : ℚ) (hr0 : 0 ≤ r) (hr1 : r ≤ 1)
    (hg0 : 0 ≤ g) (hg1 : g ≤ 1) (hb0 : 0 ≤ b) (hb1 : b ≤ 1) :
    display_roundtrip (ColorValue.Rgb r g b)
      = some (ColorValue.Rgb (quantizeChannel r) (quantizeChannel g)
          (quantizeChannel b)) ∧
    |quantizeChannel r - r| ≤ 1 / 255 ∧
    |quantizeChannel g - g| ≤ 1 / 255 ∧
    |quantizeChannel b - b| ≤ 1 / 255 :=
  ⟨rfl, quantizeChannel_close r hr0 hr1, quantizeChannel_close g hg0 hg1,
    quantizeChannel_close b hb0 hb1⟩

/-- C5 witness: the bound at the concrete channel triple (1/3, 2/3, 1). -/
theorem display_roundtrip_close_witness :
    ((0 : ℚ) ≤ 1/3 ∧ (1/3 : ℚ) ≤ 1) ∧ ((0 : ℚ) ≤ 2/3 ∧ (2/3 : ℚ) ≤ 1) ∧
    ((0 : ℚ) ≤ 1 ∧ (1 : ℚ) ≤ 1) ∧
    (display_roundtrip (ColorValue.Rgb (1/3) (2/3) 1)
      = some (ColorValue.Rgb (quantizeChannel (1/3)) (quantizeChannel (2/3))
          (quantizeChannel 1)) ∧
    |quantizeChannel (1/3) - 1/3| ≤ 1 / 255 ∧
    |quantizeChannel (2/3) - 2/3| ≤ 1 / 255 ∧
    |quantizeChannel 1 - 1| ≤ 1 / 255) :=
  ⟨⟨by norm_num, by norm_num⟩, ⟨by norm_num, by norm_num⟩,
    ⟨by norm_num, by norm_num⟩,
    display_roundtrip_close (1/3) (2/3) 1 (by norm_num) (by norm_num)
      (by norm_num) (by norm_num) (by norm_num) (by norm_num)⟩

/-- C8: the render conversion is fatal exactly on the non-RGB variants —
`toDisplay` (whose `none` models the process abort) returns `none` exactly
when the value is not an Rgb value, and always succeeds on Rgb values. -/
theorem toDisplay_none_iff_not_rgb (v : ColorValue) :
    toDisplay v = none ↔ ∀ r g b : ℚ, v ≠ ColorValue.Rgb r g b := by
  cases v with
  | Rgb r g b =>
    simp only [toDisplay]
    constructor
    · intro h
      exact Option.noConfusion h
    · intro h
      exact absurd rfl (h r g b)
  | Cmyk c m y k => simp [toDisplay]
  | Lab l a b => simp [toDisplay]
  | Gray g => simp [toDisplay]

/-- C8 witness: the conversion aborts on a concrete Gray value and
succeeds on a concrete Rgb value. -/
theorem toDisplay_none_iff_not_rgb_witness :
    toDisplay (ColorValue.Gray 0) = none ∧
    ColorValue.Gray 0 ≠ ColorValue.Rgb 1 1 1 :=
  ⟨(toDisplay_none_iff_not_rgb (ColorValue.Gray 0)).mpr
      (fun _ _ _ h => ColorValue.noConfusion h),
    (toDisplay_none_iff_not_rgb (ColorValue.Gray 0)).mp rfl 1 1 1⟩

/-- C10: Save and Save As never modify the document — groups and ungrouped
are identical before and after, whatever the prompt outcome and whatever
the write outcome (the encoder receives clones of the sequences). -/
theorem save_saveAs_preserve_document (app : App) (dlg : Option Path)
    (w : Except String Unit) :
    (save app dlg w).1.groups = app.groups ∧
    (save app dlg w).1.ungrouped = app.ungrouped ∧
    (saveAs app dlg w).1.groups = app.groups ∧
    (saveAs app dlg w).1.ungrouped = app.ungrouped := by
  obtain ⟨sp, gs, us, es⟩ := app
  cases sp <;> cases dlg <;> cases w <;>
    simp [save, saveAs, set_save_path]

end Swatch
